import Mathlib

/-!
Verification of the showtime scheduler of a cinema-ticketing backend.

The embedding models the showtime controller (create, update, soft delete,
single fetch, and the three listing queries) as pure functions over an
explicit state.  Timestamps are integers counting milliseconds; a JavaScript
`Date` arithmetic step `d.setMinutes(d.getMinutes() + k)` adds `k * 60000`
milliseconds, and `setHours(0,0,0,0)` / `setHours(23,59,59,999)` floor a
timestamp to the boundaries of its day (86400000 ms per day).
-/

/-- Milliseconds in one minute. -/
def msPerMinute : Int := 60000

/-- Milliseconds in one day. -/
def msPerDay : Int := 86400000

/-- Start of the calendar day containing timestamp `t` (models
`new Date(t).setHours(0, 0, 0, 0)`). -/
def dayStart (t : Int) : Int := msPerDay * (Int.fdiv t msPerDay)

/-- End of the calendar day containing timestamp `t` (models
`new Date(t).setHours(23, 59, 59, 999)`). -/
def dayEnd (t : Int) : Int := dayStart t + 86399999

/-- Ceiling division on naturals; models `Math.ceil(a / b)` for positive `b`. -/
def ceilDiv (a b : Nat) : Nat := (a + b - 1) / b

/-- A movie from the catalog store; only the fields the scheduler reads. -/
structure Movie where
  id : Nat
  duration : Nat
deriving Repr, DecidableEq

/-- Seat layout of a screen; the controller reads `screen.seats.total`. -/
structure Seats where
  total : Nat
deriving Repr, DecidableEq

/-- A screen (auditorium) inside a cinema. -/
structure Screen where
  id : Nat
  seats : Seats
deriving Repr, DecidableEq

/-- A cinema from the catalog store: its screens and default price list
(`cinema.priceList`, modelled as a single number). -/
structure Cinema where
  id : Nat
  screens : List Screen
  priceList : Int
deriving Repr, DecidableEq

/-- A persisted showtime record.  The schema file `Showtime.model.js` is not
part of the sources at hand; the fields and their creation defaults
(`bookedSeats = []`, `isActive = true`, derived `status`) are modelled from
the spec's data-model section. -/
structure Showtime where
  id : Nat
  movieId : Nat
  cinemaId : Nat
  screenId : Nat
  date : Int
  startTime : Int
  endTime : Int
  price : Int
  availableSeats : Nat
  bookedSeats : List Nat
  isActive : Bool
  status : String
deriving Repr, DecidableEq

/-- The scheduler's persistent state: the showtime collection plus a counter
standing in for the store's fresh-id generation. -/
structure State where
  showtimes : List Showtime
  nextId : Nat
deriving Repr, DecidableEq

/-- Request body of `POST /showtimes`. -/
structure CreateReq where
  movieId : Nat
  cinemaId : Nat
  screenId : Nat
  startTime : Int
  date : Int
  price : Option Int
deriving Repr, DecidableEq

/-- Response of the create handler: HTTP status, the `success` flag of the
JSON envelope, the error `message` when present, and the created record when
present. -/
structure CreateRes where
  httpStatus : Nat
  success : Bool
  message : Option String
  showtime : Option Showtime
deriving Repr, DecidableEq

/-- JavaScript `price || cinema.priceList`: any falsy price (absent, or the
number 0) falls back to the cinema's price list. -/
def jsOr (price : Option Int) (fallback : Int) : Int :=
  match price with
  | none => fallback
  | some p => if p == 0 then fallback else p

/-- The conflict predicate of the create handler's `findOne` query: same
cinema, screen and date, strict interval intersection, and `isActive`. -/
def conflictsWith (rq : CreateReq) (endT : Int) (s : Showtime) : Bool :=
  s.cinemaId == rq.cinemaId && s.screenId == rq.screenId && s.date == rq.date
    && decide (s.startTime < endT) && decide (rq.startTime < s.endTime)
    && s.isActive

/-- The create handler (`createShowtime`): resolve movie, cinema and screen
(404 on failure), compute `endTime = startTime + (duration + 15) minutes`,
reject with 400 when a conflicting active showtime exists, otherwise persist
the new record and return it with status 201. -/
def createShowtime (movies : List Movie) (cinemas : List Cinema)
    (st : State) (rq : CreateReq) : CreateRes × State :=
  match movies.find? (fun m => m.id == rq.movieId),
        cinemas.find? (fun c => c.id == rq.cinemaId) with
  | some movie, some cinema =>
    match cinema.screens.find? (fun sc => sc.id == rq.screenId) with
    | some screen =>
      let endT : Int := rq.startTime + ((movie.duration : Int) + 15) * msPerMinute
      match st.showtimes.find? (conflictsWith rq endT) with
      | some _ =>
        ({ httpStatus := 400, success := false,
           message := some "Time slot conflicts with existing showtime",
           showtime := none }, st)
      | none =>
        let s : Showtime :=
          { id := st.nextId, movieId := rq.movieId, cinemaId := rq.cinemaId,
            screenId := rq.screenId, date := rq.date, startTime := rq.startTime,
            endTime := endT, price := jsOr rq.price cinema.priceList,
            availableSeats := screen.seats.total, bookedSeats := [],
            isActive := true, status := "upcoming" }
        ({ httpStatus := 201, success := true, message := none,
           showtime := some s },
         { showtimes := st.showtimes ++ [s], nextId := st.nextId + 1 })
    | none =>
      ({ httpStatus := 404, success := false,
         message := some "Screen not found", showtime := none }, st)
  | _, _ =>
    ({ httpStatus := 404, success := false,
       message := some "Movie or Cinema not found", showtime := none }, st)

/-- A `PUT /showtimes/:id` body: every field may be patched; absent fields
keep their stored value (`findByIdAndUpdate` semantics). -/
structure UpdatePatch where
  movieId : Option Nat
  cinemaId : Option Nat
  screenId : Option Nat
  date : Option Int
  startTime : Option Int
  endTime : Option Int
  price : Option Int
  availableSeats : Option Nat
  bookedSeats : Option (List Nat)
  isActive : Option Bool
deriving Repr, DecidableEq

/-- Apply a patch record over a stored showtime. -/
def applyPatch (p : UpdatePatch) (s : Showtime) : Showtime :=
  { s with
    movieId := p.movieId.getD s.movieId,
    cinemaId := p.cinemaId.getD s.cinemaId,
    screenId := p.screenId.getD s.screenId,
    date := p.date.getD s.date,
    startTime := p.startTime.getD s.startTime,
    endTime := p.endTime.getD s.endTime,
    price := p.price.getD s.price,
    availableSeats := p.availableSeats.getD s.availableSeats,
    bookedSeats := p.bookedSeats.getD s.bookedSeats,
    isActive := p.isActive.getD s.isActive }

/-- Response of the update handler. -/
structure UpdateRes where
  httpStatus : Nat
  success : Bool
  showtime : Option Showtime
deriving Repr, DecidableEq

/-- The update handler (`updateShowtime`): 404 when the id resolves to no
record, otherwise apply the patch and return the updated record.  Note: no
conflict check is re-run. -/
def updateShowtime (st : State) (id : Nat) (p : UpdatePatch) :
    UpdateRes × State :=
  match st.showtimes.find? (fun s => s.id == id) with
  | none => ({ httpStatus := 404, success := false, showtime := none }, st)
  | some s0 =>
    ({ httpStatus := 200, success := true, showtime := some (applyPatch p s0) },
     { st with showtimes :=
         st.showtimes.map (fun s => if s.id == id then applyPatch p s else s) })

/-- Response of the delete handler. -/
structure DeleteRes where
  httpStatus : Nat
  success : Bool
  message : String
deriving Repr, DecidableEq

/-- The record transformation a soft delete performs on the matching id. -/
def deactivate (id : Nat) (t : Showtime) : Showtime :=
  if t.id == id then { t with isActive := false } else t

/-- The delete handler (`deleteShowtime`): 404 when absent, 400 when the
showtime has booked seats, otherwise set `isActive := false` (soft delete). -/
def deleteShowtime (st : State) (id : Nat) : DeleteRes × State :=
  match st.showtimes.find? (fun s => s.id == id) with
  | none => ({ httpStatus := 404, success := false,
               message := "Showtime not found" }, st)
  | some s =>
    if s.bookedSeats.length > 0 then
      ({ httpStatus := 400, success := false,
         message := "Cannot delete showtime with existing bookings" }, st)
    else
      ({ httpStatus := 200, success := true,
         message := "Showtime deleted successfully" },
       { st with showtimes := st.showtimes.map (deactivate id) })

/-- Modelled from the spec: the instance method `updateStatus` lives in
`Showtime.model.js`, which is not among the sources at hand; the spec defines
it as a pure function of the clock against `[startTime, endTime]`:
`upcoming` before `startTime`, `ongoing` between the bounds inclusive,
`ended` after `endTime`. -/
def updateStatus (now : Int) (s : Showtime) : String :=
  if now < s.startTime then "upcoming"
  else if now ≤ s.endTime then "ongoing"
  else "ended"

/-- Response of the single-showtime fetch handler. -/
structure GetRes where
  httpStatus : Nat
  success : Bool
  showtime : Option Showtime
deriving Repr, DecidableEq

/-- The single fetch handler (`getShowtime`): 404 when absent, otherwise
recompute the status, write it back (`showtime.save()`), and return the
refreshed record. -/
def getShowtime (st : State) (id : Nat) (now : Int) : GetRes × State :=
  match st.showtimes.find? (fun s => s.id == id) with
  | none => ({ httpStatus := 404, success := false, showtime := none }, st)
  | some s =>
    ({ httpStatus := 200, success := true,
       showtime := some { s with status := updateStatus now s } },
     { st with showtimes :=
         st.showtimes.map (fun t =>
           if t.id == id then { t with status := updateStatus now t } else t) })

/-- Ordering of showtimes by start time, the `sort('startTime')` order. -/
def startLE (a b : Showtime) : Prop := a.startTime ≤ b.startTime

instance : DecidableRel startLE := fun a b => Int.decLe a.startTime b.startTime

instance : IsTotal Showtime startLE :=
  ⟨fun a b => Int.le_total a.startTime b.startTime⟩

instance : IsTrans Showtime startLE :=
  ⟨fun _ _ _ h1 h2 => le_trans h1 h2⟩

/-- Sorting by ascending `startTime` (models Mongo `sort('startTime')`). -/
def sortByStart (l : List Showtime) : List Showtime :=
  List.insertionSort startLE l

/-- Query parameters of `GET /showtimes`. -/
structure ListReq where
  movieId : Option Nat
  cinemaId : Option Nat
  date : Option Int
  page : Option Nat
  limit : Option Nat
deriving Repr, DecidableEq

/-- The Mongo query object built by the list handler: `isActive`, optional
movie/cinema filters, and either the day range of `date` or `startTime ≥ now`. -/
def matchesListQuery (rq : ListReq) (now : Int) (s : Showtime) : Bool :=
  s.isActive
    && (match rq.movieId with | some m => s.movieId == m | none => true)
    && (match rq.cinemaId with | some c => s.cinemaId == c | none => true)
    && (match rq.date with
        | some d =>
          decide (dayStart d ≤ s.startTime) && decide (s.startTime ≤ dayEnd d)
        | none => decide (now ≤ s.startTime))

/-- Response of the list handler, with its pagination envelope. -/
structure ListRes where
  success : Bool
  count : Nat
  total : Nat
  totalPages : Nat
  currentPage : Nat
  showtimes : List Showtime
deriving Repr, DecidableEq

/-- The list handler (`getShowtimes`): filter, sort ascending by start time,
paginate with `skip((page-1)*limit)` and `limit(limit)` (defaults 1 and 20),
and report `totalPages = ceil(total / limit)`. -/
def getShowtimes (rq : ListReq) (st : State) (now : Int) : ListRes :=
  let matched := st.showtimes.filter (matchesListQuery rq now)
  let limit := rq.limit.getD 20
  let page := rq.page.getD 1
  let pageItems := ((sortByStart matched).drop ((page - 1) * limit)).take limit
  { success := true, count := pageItems.length, total := matched.length,
    totalPages := ceilDiv matched.length limit, currentPage := page,
    showtimes := pageItems }

/-- Query parameters of `GET /showtimes/movie/:movieId`.  The query string
may carry `page`/`limit`, but the handler destructures only `date` and
`cinemaId`, so they are ignored. -/
structure MovieQuery where
  date : Option Int
  cinemaId : Option Nat
  page : Option Nat
  limit : Option Nat
deriving Repr, DecidableEq

/-- The Mongo query of the by-movie handler. -/
def matchesMovieQuery (movieId : Nat) (rq : MovieQuery) (now : Int)
    (s : Showtime) : Bool :=
  s.movieId == movieId && s.isActive
    && (match rq.date with
        | some d =>
          decide (dayStart d ≤ s.startTime) && decide (s.startTime ≤ dayEnd d)
        | none => decide (now ≤ s.startTime))
    && (match rq.cinemaId with | some c => s.cinemaId == c | none => true)

/-- Response of the by-movie and by-cinema handlers: no pagination fields. -/
structure SimpleListRes where
  success : Bool
  count : Nat
  showtimes : List Showtime
deriving Repr, DecidableEq

/-- The by-movie handler (`getShowtimesByMovie`): filter and sort; every
matching record is returned. -/
def getShowtimesByMovie (movieId : Nat) (rq : MovieQuery) (st : State)
    (now : Int) : SimpleListRes :=
  let shows := sortByStart (st.showtimes.filter (matchesMovieQuery movieId rq now))
  { success := true, count := shows.length, showtimes := shows }

/-- Query parameters of `GET /showtimes/cinema/:cinemaId`; `page`/`limit`
may be present in the query string but are ignored by the handler. -/
structure CinemaQuery where
  date : Option Int
  movieId : Option Nat
  page : Option Nat
  limit : Option Nat
deriving Repr, DecidableEq

/-- The Mongo query of the by-cinema handler. -/
def matchesCinemaQuery (cinemaId : Nat) (rq : CinemaQuery) (now : Int)
    (s : Showtime) : Bool :=
  s.cinemaId == cinemaId && s.isActive
    && (match rq.date with
        | some d =>
          decide (dayStart d ≤ s.startTime) && decide (s.startTime ≤ dayEnd d)
        | none => decide (now ≤ s.startTime))
    && (match rq.movieId with | some m => s.movieId == m | none => true)

/-- The by-cinema handler (`getShowtimesByCinema`): filter and sort; every
matching record is returned. -/
def getShowtimesByCinema (cinemaId : Nat) (rq : CinemaQuery) (st : State)
    (now : Int) : SimpleListRes :=
  let shows := sortByStart (st.showtimes.filter (matchesCinemaQuery cinemaId rq now))
  { success := true, count := shows.length, showtimes := shows }

/-- Two showtimes contend for the same slot key. -/
def sameSlotKey (a b : Showtime) : Bool :=
  a.cinemaId == b.cinemaId && a.screenId == b.screenId && a.date == b.date

/-- Strict intersection of the half-open intervals of two showtimes. -/
def overlapsB (a b : Showtime) : Bool :=
  decide (a.startTime < b.endTime) && decide (b.startTime < a.endTime)

/-- The no-overlap invariant: no two distinct active showtimes with the same
`(cinemaId, screenId, date)` have intersecting `[startTime, endTime)`. -/
def noOverlapB : List Showtime → Bool
  | [] => true
  | s :: rest =>
    rest.all (fun t => !(s.isActive && t.isActive && sameSlotKey s t && overlapsB s t))
      && noOverlapB rest

/-! Concrete fixtures: one movie of 120 minutes, one cinema with a single
80-seat screen and price list 100.  Times are milliseconds of day 0:
14:00 is 50400000, 15:00 is 54000000, 16:15 is 58500000. -/

/-- A 120-minute movie. -/
def mv1 : Movie := ⟨1, 120⟩

/-- The cinema's single screen, 80 seats. -/
def scr1 : Screen := ⟨11, ⟨80⟩⟩

/-- A cinema holding `scr1`, default price 100. -/
def cin1 : Cinema := ⟨2, [scr1], 100⟩

/-- The empty store. -/
def stEmpty : State := ⟨[], 0⟩

/-- Create request for 14:00 on day 0. -/
def rqBase : CreateReq := ⟨1, 2, 11, 50400000, 0, none⟩

/-- The record created by `rqBase`: 14:00 to 16:15. -/
def sBase : Showtime :=
  ⟨0, 1, 2, 11, 0, 50400000, 58500000, 100, 80, [], true, "upcoming"⟩

/-- State holding the single 14:00 showtime. -/
def showBase : State := (createShowtime [mv1] [cin1] stEmpty rqBase).2

/-- Create request abutting at 16:15. -/
def rqAbut : CreateReq := ⟨1, 2, 11, 58500000, 0, none⟩

/-- The record created by `rqAbut`. -/
def sW : Showtime :=
  ⟨1, 1, 2, 11, 0, 58500000, 66600000, 100, 80, [], true, "upcoming"⟩

/-- Create request with an explicit price of 0 at the free 16:15 slot. -/
def rqPrice0 : CreateReq := ⟨1, 2, 11, 58500000, 0, some 0⟩

/-- State reachable by two creates: showtimes at 14:00 and at 60000000 ms. -/
def stTwo : State :=
  (createShowtime [mv1] [cin1] showBase ⟨1, 2, 11, 60000000, 0, none⟩).2

/-- Patch moving a showtime onto 54000000-62100000, overlapping `sBase`. -/
def movePatch : UpdatePatch :=
  ⟨none, none, none, none, some 54000000, some 62100000, none, none, none, none⟩

/-- The conflict predicate of the create query, spelled as a proposition. -/
theorem conflictsWith_iff (rq : CreateReq) (endT : Int) (s : Showtime) :
    conflictsWith rq endT s = true ↔
      (s.cinemaId = rq.cinemaId ∧ s.screenId = rq.screenId ∧ s.date = rq.date ∧
       s.startTime < endT ∧ rq.startTime < s.endTime ∧ s.isActive = true) := by
  simp [conflictsWith, and_assoc]

/-- C3: a successfully created showtime ends exactly at its start time plus
the movie's duration plus the fixed 15-minute cleaning buffer. -/
theorem C3_create_endtime (movies : List Movie) (cinemas : List Cinema)
    (st : State) (rq : CreateReq) (movie : Movie) (s : Showtime)
    (hm : movies.find? (fun m => m.id == rq.movieId) = some movie)
    (hok : (createShowtime movies cinemas st rq).1.showtime = some s) :
    s.endTime = rq.startTime + ((movie.duration : Int) + 15) * msPerMinute := by
  rcases hc : cinemas.find? (fun c => c.id == rq.cinemaId) with _ | cinema
  · simp [createShowtime, hm, hc] at hok
  rcases hs : cinema.screens.find? (fun sc => sc.id == rq.screenId) with _ | screen
  · simp [createShowtime, hm, hc, hs] at hok
  rcases hcf : st.showtimes.find?
      (conflictsWith rq (rq.startTime + ((movie.duration : Int) + 15) * msPerMinute))
      with _ | c
  · simp [createShowtime, hm, hc, hs, hcf] at hok
    rw [← hok]
  · simp [createShowtime, hm, hc, hs, hcf] at hok

/-- C3 witness: duration 120 and start 14:00 give end 16:15
(50400000 + 135 minutes = 58500000 ms). -/
theorem C3_create_endtime_witness :
    sBase.endTime = rqBase.startTime + ((mv1.duration : Int) + 15) * msPerMinute ∧
    sBase.endTime = 58500000 :=
  ⟨C3_create_endtime [mv1] [cin1] stEmpty rqBase mv1 sBase rfl rfl, rfl⟩

/-- C4 counterexample: a caller-supplied price of 0 is falsy for the
JavaScript `price || cinema.priceList`, so the persisted price is the
cinema's price list (100), not the supplied 0. -/
theorem C4_price_zero_counterexample :
    rqPrice0.price = some 0 ∧
    ((createShowtime [mv1] [cin1] showBase rqPrice0).1.showtime.map
        (fun s => s.price)) = some 100 ∧
    (100 : Int) ≠ 0 := by
  exact ⟨rfl, rfl, by decide⟩

/-- C4 amended: a successful create persists `availableSeats` equal to the
screen's total seat count, empty `bookedSeats`, `isActive = true`, and a
price that equals the caller-supplied price when it is present and nonzero
and the cinema's price list otherwise; the record is appended and returned
with status 201. -/
theorem C4_create_success_fields (movies : List Movie) (cinemas : List Cinema)
    (st : State) (rq : CreateReq) (movie : Movie) (cinema : Cinema)
    (screen : Screen) (s : Showtime)
    (hm : movies.find? (fun m => m.id == rq.movieId) = some movie)
    (hc : cinemas.find? (fun c => c.id == rq.cinemaId) = some cinema)
    (hs : cinema.screens.find? (fun sc => sc.id == rq.screenId) = some screen)
    (hok : (createShowtime movies cinemas st rq).1.showtime = some s) :
    s.availableSeats = screen.seats.total ∧ s.bookedSeats = [] ∧
    s.isActive = true ∧
    s.price = (match rq.price with
               | some p => if p = 0 then cinema.priceList else p
               | none => cinema.priceList) ∧
    (createShowtime movies cinemas st rq).1.httpStatus = 201 ∧
    (createShowtime movies cinemas st rq).2.showtimes = st.showtimes ++ [s] := by
  rcases hcf : st.showtimes.find?
      (conflictsWith rq (rq.startTime + ((movie.duration : Int) + 15) * msPerMinute))
      with _ | c
  · simp only [createShowtime, hm, hc, hs, hcf] at hok ⊢
    obtain rfl := Option.some.inj hok
    refine ⟨rfl, rfl, rfl, ?_, trivial, rfl⟩
    simp only [jsOr]
    rcases rq.price with _ | p
    · rfl
    · by_cases hp : p = 0
      · simp [hp]
      · simp [hp]
  · simp [createShowtime, hm, hc, hs, hcf] at hok

/-- C4 amended witness: the 16:15 create on the fixture cinema yields 80
available seats, no booked seats, an active record, and price 100. -/
theorem C4_create_success_fields_witness :
    sW.availableSeats = scr1.seats.total ∧ sW.bookedSeats = [] ∧
    sW.isActive = true ∧ sW.price = 100 := by
  have h := C4_create_success_fields [mv1] [cin1] showBase rqAbut mv1 cin1 scr1 sW
    rfl rfl rfl rfl
  exact ⟨h.1, h.2.1, h.2.2.1, by simpa using h.2.2.2.1⟩

/-- C8: the create handler answers 404 with `success = false` and leaves the
state unchanged when the movie or the cinema does not resolve, and likewise
when the screen id is not a screen of the resolved cinema. -/
theorem C8_create_notfound (movies : List Movie) (cinemas : List Cinema)
    (st : State) (rq : CreateReq) :
    ((movies.find? (fun m => m.id == rq.movieId) = none ∨
      cinemas.find? (fun c => c.id == rq.cinemaId) = none) →
      createShowtime movies cinemas st rq =
        ({ httpStatus := 404, success := false,
           message := some "Movie or Cinema not found", showtime := none }, st)) ∧
    (∀ movie cinema,
      movies.find? (fun m => m.id == rq.movieId) = some movie →
      cinemas.find? (fun c => c.id == rq.cinemaId) = some cinema →
      cinema.screens.find? (fun sc => sc.id == rq.screenId) = none →
      createShowtime movies cinemas st rq =
        ({ httpStatus := 404, success := false,
           message := some "Screen not found", showtime := none }, st)) := by
  constructor
  · intro h
    rcases hmm : movies.find? (fun m => m.id == rq.movieId) with _ | movie
    · simp [createShowtime, hmm]
    · rcases h with h | h
      · rw [hmm] at h
        exact absurd h (by simp)
      · simp [createShowtime, hmm, h]
  · intro movie cinema hm hc hs
    simp [createShowtime, hm, hc, hs]

/-- C8 witness: with an empty movie catalog, a create request is rejected
with 404 and the state is untouched. -/
theorem C8_create_notfound_witness :
    createShowtime [] [cin1] showBase rqAbut =
      ({ httpStatus := 404, success := false,
         message := some "Movie or Cinema not found", showtime := none },
       showBase) :=
  (C8_create_notfound [] [cin1] showBase rqAbut).1 (Or.inl rfl)

/-- C6: `updateStatus` is the pure trichotomy of the clock against
`[startTime, endTime]`, and fetching a single showtime recomputes the status
and writes it back before returning the record. -/
theorem C6_status_recompute (st : State) (id : Nat) (now : Int) (s : Showtime)
    (hfind : st.showtimes.find? (fun t => t.id == id) = some s)
    (hwf : s.startTime ≤ s.endTime) :
    (now < s.startTime → updateStatus now s = "upcoming") ∧
    (s.startTime ≤ now → now ≤ s.endTime → updateStatus now s = "ongoing") ∧
    (s.endTime < now → updateStatus now s = "ended") ∧
    (getShowtime st id now).1 =
      { httpStatus := 200, success := true,
        showtime := some { s with status := updateStatus now s } } ∧
    (getShowtime st id now).2.showtimes =
      st.showtimes.map (fun t =>
        if t.id == id then { t with status := updateStatus now t } else t) := by
  refine ⟨?_, ?_, ?_, ?_, ?_⟩
  · intro h
    simp [updateStatus, h]
  · intro h1 h2
    simp [updateStatus, not_lt.mpr h1, h2]
  · intro h
    simp [updateStatus, not_lt.mpr (le_of_lt (lt_of_le_of_lt hwf h)), not_le.mpr h]
  · simp [getShowtime, hfind]
  · simp [getShowtime, hfind]

/-- C6 witness: on a stored showtime running from 10 to 20, a fetch at time
15 returns status `ongoing` and writes the recomputed status back. -/
theorem C6_status_recompute_witness :
    updateStatus 15 ⟨7, 1, 2, 11, 0, 10, 20, 100, 80, [], true, "upcoming"⟩ = "ongoing" ∧
    (getShowtime ⟨[⟨7, 1, 2, 11, 0, 10, 20, 100, 80, [], true, "upcoming"⟩], 8⟩ 7 15).1.httpStatus
      = 200 := by
  have h := C6_status_recompute
    ⟨[⟨7, 1, 2, 11, 0, 10, 20, 100, 80, [], true, "upcoming"⟩], 8⟩ 7 15
    ⟨7, 1, 2, 11, 0, 10, 20, 100, 80, [], true, "upcoming"⟩ rfl (by decide)
  refine ⟨h.2.1 (by decide) (by decide), ?_⟩
  rw [h.2.2.2.1]

/-- C2: once movie, cinema and screen resolve, a create whose candidate
interval strictly intersects some active showtime on the same
`(cinemaId, screenId, date)` is rejected with 400 and leaves the state
untouched, while a candidate that intersects none (in particular, one that
abuts an existing showtime exactly at its end time) is created with 201. -/
theorem C2_create_conflict (movies : List Movie) (cinemas : List Cinema)
    (st : State) (rq : CreateReq) (movie : Movie) (cinema : Cinema)
    (screen : Screen)
    (hm : movies.find? (fun m => m.id == rq.movieId) = some movie)
    (hc : cinemas.find? (fun c => c.id == rq.cinemaId) = some cinema)
    (hs : cinema.screens.find? (fun sc => sc.id == rq.screenId) = some screen) :
    ((∃ s ∈ st.showtimes, s.isActive = true ∧ s.cinemaId = rq.cinemaId ∧
        s.screenId = rq.screenId ∧ s.date = rq.date ∧
        s.startTime < rq.startTime + ((movie.duration : Int) + 15) * msPerMinute ∧
        rq.startTime < s.endTime) →
      createShowtime movies cinemas st rq =
        ({ httpStatus := 400, success := false,
           message := some "Time slot conflicts with existing showtime",
           showtime := none }, st)) ∧
    ((∀ s ∈ st.showtimes, s.isActive = true → s.cinemaId = rq.cinemaId →
        s.screenId = rq.screenId → s.date = rq.date →
        ¬(s.startTime < rq.startTime + ((movie.duration : Int) + 15) * msPerMinute ∧
          rq.startTime < s.endTime)) →
      (createShowtime movies cinemas st rq).1.httpStatus = 201 ∧
      (createShowtime movies cinemas st rq).1.success = true ∧
      (createShowtime movies cinemas st rq).2.showtimes.length =
        st.showtimes.length + 1) := by
  constructor
  · rintro ⟨s, hmem, hact, hcin, hscr, hdate, h1, h2⟩
    have hsome : (st.showtimes.find?
        (conflictsWith rq (rq.startTime + ((movie.duration : Int) + 15) * msPerMinute))).isSome := by
      rw [List.find?_isSome]
      exact ⟨s, hmem, (conflictsWith_iff _ _ _).mpr ⟨hcin, hscr, hdate, h1, h2, hact⟩⟩
    rcases hcf : st.showtimes.find?
        (conflictsWith rq (rq.startTime + ((movie.duration : Int) + 15) * msPerMinute))
        with _ | c
    · rw [hcf] at hsome
      exact absurd hsome (by simp)
    · simp [createShowtime, hm, hc, hs, hcf]
  · intro hall
    have hnone : st.showtimes.find?
        (conflictsWith rq (rq.startTime + ((movie.duration : Int) + 15) * msPerMinute)) = none := by
      rw [List.find?_eq_none]
      intro x hx hpx
      rw [conflictsWith_iff] at hpx
      exact hall x hx hpx.2.2.2.2.2 hpx.1 hpx.2.1 hpx.2.2.1
        ⟨hpx.2.2.2.1, hpx.2.2.2.2.1⟩
    simp [createShowtime, hm, hc, hs, hnone]

/-- C2 witness: on the fixture state holding the 14:00-16:15 showtime, a
create starting exactly at 16:15 abuts without conflict and succeeds. -/
theorem C2_create_conflict_witness :
    (createShowtime [mv1] [cin1] showBase rqAbut).1.httpStatus = 201 ∧
    (createShowtime [mv1] [cin1] showBase rqAbut).1.success = true ∧
    (createShowtime [mv1] [cin1] showBase rqAbut).2.showtimes.length =
      showBase.showtimes.length + 1 :=
  (C2_create_conflict [mv1] [cin1] showBase rqAbut mv1 cin1 scr1
    rfl rfl rfl).2 (by decide)

/-- Records returned by the list handler come from the store and match its
query. -/
theorem mem_getShowtimes (rq : ListReq) (st : State) (now : Int) (t : Showtime)
    (h : t ∈ (getShowtimes rq st now).showtimes) :
    t ∈ st.showtimes ∧ matchesListQuery rq now t = true := by
  have h0 : t ∈ ((sortByStart (st.showtimes.filter (matchesListQuery rq now))).drop
      ((rq.page.getD 1 - 1) * rq.limit.getD 20)).take (rq.limit.getD 20) := h
  have h1 := (List.take_sublist _ _).subset h0
  have h2 := (List.drop_sublist _ _).subset h1
  rw [sortByStart, List.mem_insertionSort] at h2
  exact List.mem_filter.mp h2

/-- Records returned by the by-movie handler come from the store and match
its query. -/
theorem mem_getShowtimesByMovie (movieId : Nat) (rq : MovieQuery) (st : State)
    (now : Int) (t : Showtime)
    (h : t ∈ (getShowtimesByMovie movieId rq st now).showtimes) :
    t ∈ st.showtimes ∧ matchesMovieQuery movieId rq now t = true := by
  have h0 : t ∈ sortByStart (st.showtimes.filter (matchesMovieQuery movieId rq now)) := h
  rw [sortByStart, List.mem_insertionSort] at h0
  exact List.mem_filter.mp h0

/-- Records returned by the by-cinema handler come from the store and match
its query. -/
theorem mem_getShowtimesByCinema (cinemaId : Nat) (rq : CinemaQuery) (st : State)
    (now : Int) (t : Showtime)
    (h : t ∈ (getShowtimesByCinema cinemaId rq st now).showtimes) :
    t ∈ st.showtimes ∧ matchesCinemaQuery cinemaId rq now t = true := by
  have h0 : t ∈ sortByStart (st.showtimes.filter (matchesCinemaQuery cinemaId rq now)) := h
  rw [sortByStart, List.mem_insertionSort] at h0
  exact List.mem_filter.mp h0

/-- Matching the list query requires `isActive`. -/
theorem matchesListQuery_isActive (rq : ListReq) (now : Int) (t : Showtime)
    (h : matchesListQuery rq now t = true) : t.isActive = true := by
  simp only [matchesListQuery, Bool.and_eq_true] at h
  exact h.1.1.1

/-- Matching the by-movie query requires `isActive`. -/
theorem matchesMovieQuery_isActive (movieId : Nat) (rq : MovieQuery) (now : Int)
    (t : Showtime) (h : matchesMovieQuery movieId rq now t = true) :
    t.isActive = true := by
  simp only [matchesMovieQuery, Bool.and_eq_true] at h
  exact h.1.1.2

/-- Matching the by-cinema query requires `isActive`. -/
theorem matchesCinemaQuery_isActive (cinemaId : Nat) (rq : CinemaQuery) (now : Int)
    (t : Showtime) (h : matchesCinemaQuery cinemaId rq now t = true) :
    t.isActive = true := by
  simp only [matchesCinemaQuery, Bool.and_eq_true] at h
  exact h.1.1.2

/-- Soft-deleting touches no field other than `isActive`. -/
theorem deactivate_fields (id : Nat) (t : Showtime) :
    (deactivate id t).id = t.id ∧ (deactivate id t).movieId = t.movieId ∧
    (deactivate id t).cinemaId = t.cinemaId ∧
    (deactivate id t).screenId = t.screenId ∧
    (deactivate id t).date = t.date ∧
    (deactivate id t).startTime = t.startTime ∧
    (deactivate id t).endTime = t.endTime ∧
    (deactivate id t).price = t.price ∧
    (deactivate id t).availableSeats = t.availableSeats ∧
    (deactivate id t).bookedSeats = t.bookedSeats := by
  unfold deactivate
  split <;> exact ⟨rfl, rfl, rfl, rfl, rfl, rfl, rfl, rfl, rfl, rfl⟩

/-- Soft-deleting a different id leaves a record untouched. -/
theorem deactivate_of_ne (id : Nat) (t : Showtime) (h : t.id ≠ id) :
    deactivate id t = t := by
  unfold deactivate
  rw [if_neg (by simpa using h)]

/-- Soft-deleting the matching id clears `isActive`. -/
theorem deactivate_isActive_eq (id : Nat) (t : Showtime) (h : t.id = id) :
    (deactivate id t).isActive = false := by
  unfold deactivate
  rw [if_pos (by simpa using h)]

/-- After mapping the soft delete over the store, every record carrying the
deleted id is inactive. -/
theorem mem_map_deactivate_inactive (l : List Showtime) (id : Nat) (t : Showtime)
    (h : t ∈ l.map (deactivate id)) (hid : t.id = id) : t.isActive = false := by
  rcases List.mem_map.mp h with ⟨u, hu, rfl⟩
  by_cases hc : u.id = id
  · exact deactivate_isActive_eq id u hc
  · rw [deactivate_of_ne id u hc] at hid ⊢
    exact absurd hid hc

/-- A delete on an empty-booked showtime answers 200 and maps the soft
delete over the store. -/
theorem deleteShowtime_success (st : State) (id : Nat) (s : Showtime)
    (hfind : st.showtimes.find? (fun t => t.id == id) = some s)
    (hempty : s.bookedSeats = []) :
    deleteShowtime st id =
      ({ httpStatus := 200, success := true,
         message := "Showtime deleted successfully" },
       { st with showtimes := st.showtimes.map (deactivate id) }) := by
  simp [deleteShowtime, hfind, hempty]

/-- C5: deleting a showtime with booked seats is rejected with 400 and the
state is unchanged; with empty booked seats the delete succeeds, the record
becomes inactive, and it is excluded from every listing query. -/
theorem C5_delete_gate (st : State) (id : Nat) (s : Showtime)
    (hfind : st.showtimes.find? (fun t => t.id == id) = some s) :
    (s.bookedSeats ≠ [] →
      deleteShowtime st id =
        ({ httpStatus := 400, success := false,
           message := "Cannot delete showtime with existing bookings" }, st)) ∧
    (s.bookedSeats = [] →
      (deleteShowtime st id).1 =
        { httpStatus := 200, success := true,
          message := "Showtime deleted successfully" } ∧
      (∀ t ∈ (deleteShowtime st id).2.showtimes, t.id = id → t.isActive = false) ∧
      (∀ rq now, ∀ t ∈ (getShowtimes rq (deleteShowtime st id).2 now).showtimes,
        t.id ≠ id) ∧
      (∀ movieId rq now,
        ∀ t ∈ (getShowtimesByMovie movieId rq (deleteShowtime st id).2 now).showtimes,
        t.id ≠ id) ∧
      (∀ cinemaId rq now,
        ∀ t ∈ (getShowtimesByCinema cinemaId rq (deleteShowtime st id).2 now).showtimes,
        t.id ≠ id)) := by
  constructor
  · intro hne
    simp [deleteShowtime, hfind, List.length_pos.mpr hne]
  · intro hempty
    have hdel := deleteShowtime_success st id s hfind hempty
    refine ⟨by rw [hdel], ?_, ?_, ?_, ?_⟩
    · intro t ht hid
      rw [hdel] at ht
      exact mem_map_deactivate_inactive _ id t ht hid
    · intro rq now t ht hid
      rw [hdel] at ht
      obtain ⟨hmem, hq⟩ := mem_getShowtimes rq _ now t ht
      have hact := matchesListQuery_isActive rq now t hq
      have hinact := mem_map_deactivate_inactive _ id t hmem hid
      rw [hact] at hinact
      simp at hinact
    · intro movieId rq now t ht hid
      rw [hdel] at ht
      obtain ⟨hmem, hq⟩ := mem_getShowtimesByMovie movieId rq _ now t ht
      have hact := matchesMovieQuery_isActive movieId rq now t hq
      have hinact := mem_map_deactivate_inactive _ id t hmem hid
      rw [hact] at hinact
      simp at hinact
    · intro cinemaId rq now t ht hid
      rw [hdel] at ht
      obtain ⟨hmem, hq⟩ := mem_getShowtimesByCinema cinemaId rq _ now t ht
      have hact := matchesCinemaQuery_isActive cinemaId rq now t hq
      have hinact := mem_map_deactivate_inactive _ id t hmem hid
      rw [hact] at hinact
      simp at hinact

/-- C5 witness: deleting the booking-free 14:00 showtime of the fixture
state succeeds with 200. -/
theorem C5_delete_gate_witness :
    (deleteShowtime stTwo 0).1 =
      { httpStatus := 200, success := true,
        message := "Showtime deleted successfully" } :=
  ((C5_delete_gate stTwo 0 sBase rfl).2 rfl).1

/-- C9: a successful delete changes only `isActive` — at every position of
the store, every other field of the record is preserved, the collection's
length and the id at each position are unchanged, and a record whose id is
not the deleted one is untouched entirely. -/
theorem C9_delete_frame (st : State) (id i : Nat) (s d : Showtime)
    (hfind : st.showtimes.find? (fun t => t.id == id) = some s)
    (hempty : s.bookedSeats = []) :
    (deleteShowtime st id).2.showtimes.length = st.showtimes.length ∧
    (deleteShowtime st id).2.nextId = st.nextId ∧
    ((deleteShowtime st id).2.showtimes.getD i d).id = (st.showtimes.getD i d).id ∧
    ((deleteShowtime st id).2.showtimes.getD i d).movieId = (st.showtimes.getD i d).movieId ∧
    ((deleteShowtime st id).2.showtimes.getD i d).cinemaId = (st.showtimes.getD i d).cinemaId ∧
    ((deleteShowtime st id).2.showtimes.getD i d).screenId = (st.showtimes.getD i d).screenId ∧
    ((deleteShowtime st id).2.showtimes.getD i d).date = (st.showtimes.getD i d).date ∧
    ((deleteShowtime st id).2.showtimes.getD i d).startTime = (st.showtimes.getD i d).startTime ∧
    ((deleteShowtime st id).2.showtimes.getD i d).endTime = (st.showtimes.getD i d).endTime ∧
    ((deleteShowtime st id).2.showtimes.getD i d).price = (st.showtimes.getD i d).price ∧
    ((deleteShowtime st id).2.showtimes.getD i d).availableSeats = (st.showtimes.getD i d).availableSeats ∧
    ((deleteShowtime st id).2.showtimes.getD i d).bookedSeats = (st.showtimes.getD i d).bookedSeats ∧
    ((st.showtimes.getD i d).id ≠ id →
      (deleteShowtime st id).2.showtimes.getD i d = st.showtimes.getD i d) := by
  have hdel := deleteShowtime_success st id s hfind hempty
  rw [hdel]
  rcases hget : st.showtimes[i]? with _ | u
  · have hmg : (st.showtimes.map (deactivate id))[i]? = none := by
      simp [List.getElem?_map, hget]
    simp [List.getD_eq_getElem?_getD, hget, hmg]
  · have hmg : (st.showtimes.map (deactivate id))[i]? = some (deactivate id u) := by
      simp [List.getElem?_map, hget]
    have hflds := deactivate_fields id u
    simp only [List.getD_eq_getElem?_getD, hget, hmg, Option.getD_some,
      List.length_map]
    exact ⟨trivial, trivial, hflds.1, hflds.2.1, hflds.2.2.1, hflds.2.2.2.1,
      hflds.2.2.2.2.1, hflds.2.2.2.2.2.1, hflds.2.2.2.2.2.2.1,
      hflds.2.2.2.2.2.2.2.1, hflds.2.2.2.2.2.2.2.2.1,
      hflds.2.2.2.2.2.2.2.2.2, fun hne => deactivate_of_ne id u hne⟩

/-- C9 witness: in the fixture state, deleting showtime 0 leaves the record
at position 1 (the other showtime) exactly as it was, and the length of the
collection does not change. -/
theorem C9_delete_frame_witness :
    (deleteShowtime stTwo 0).2.showtimes.getD 1 sBase = stTwo.showtimes.getD 1 sBase ∧
    (deleteShowtime stTwo 0).2.showtimes.length = stTwo.showtimes.length :=
  ⟨(C9_delete_frame stTwo 0 1 sBase sBase rfl rfl).2.2.2.2.2.2.2.2.2.2.2.2
      (by decide),
   (C9_delete_frame stTwo 0 1 sBase sBase rfl rfl).1⟩

/-- Soft-deleting preserves the record id. -/
theorem deactivate_id_eq (id : Nat) (t : Showtime) :
    (deactivate id t).id = t.id :=
  (deactivate_fields id t).1

/-- The lookup by id still finds the (now deactivated) record after the soft
delete is mapped over the store. -/
theorem find?_map_deactivate (l : List Showtime) (id : Nat) (s : Showtime)
    (h : l.find? (fun t => t.id == id) = some s) :
    (l.map (deactivate id)).find? (fun t => t.id == id) =
      some (deactivate id s) := by
  induction l with
  | nil => simp at h
  | cons a l ih =>
    rcases ha : (a.id == id) with _ | _
    · simp only [List.map_cons, List.find?_cons, deactivate_id_eq, ha] at h ⊢
      exact ih h
    · simp only [List.map_cons, List.find?_cons, deactivate_id_eq, ha] at h ⊢
      obtain rfl := Option.some.inj h
      rfl

/-- Soft delete is idempotent on a single record. -/
theorem deactivate_idem (id : Nat) (t : Showtime) :
    deactivate id (deactivate id t) = deactivate id t := by
  by_cases h : (t.id == id) = true <;> simp [deactivate, h]

/-- C10: on a showtime without bookings, delete is idempotent — the second
call also succeeds with the same response, and the state after the second
call equals the state after the first. -/
theorem C10_delete_idempotent (st : State) (id : Nat) (s : Showtime)
    (hfind : st.showtimes.find? (fun t => t.id == id) = some s)
    (hempty : s.bookedSeats = []) :
    (deleteShowtime st id).1 =
      { httpStatus := 200, success := true,
        message := "Showtime deleted successfully" } ∧
    (deleteShowtime (deleteShowtime st id).2 id).1 = (deleteShowtime st id).1 ∧
    (deleteShowtime (deleteShowtime st id).2 id).2 = (deleteShowtime st id).2 := by
  have hdel := deleteShowtime_success st id s hfind hempty
  have hfind2 : ({ st with showtimes := st.showtimes.map (deactivate id) } : State).showtimes.find?
      (fun t => t.id == id) = some (deactivate id s) :=
    find?_map_deactivate st.showtimes id s hfind
  have hempty2 : (deactivate id s).bookedSeats = [] := by
    rw [(deactivate_fields id s).2.2.2.2.2.2.2.2.2]
    exact hempty
  have hdel2 := deleteShowtime_success _ id (deactivate id s) hfind2 hempty2
  have hmaps : (st.showtimes.map (deactivate id)).map (deactivate id) =
      st.showtimes.map (deactivate id) := by
    rw [List.map_map]
    exact List.map_congr_left (fun a _ => deactivate_idem id a)
  have e1 : (deleteShowtime st id).1 =
      { httpStatus := 200, success := true,
        message := "Showtime deleted successfully" } := by rw [hdel]
  have e2 : (deleteShowtime st id).2 =
      { st with showtimes := st.showtimes.map (deactivate id) } := by rw [hdel]
  refine ⟨e1, ?_, ?_⟩
  · rw [e2, hdel2, e1]
  · rw [e2, hdel2]
    simp [hmaps]

/-- C10 witness: deleting fixture showtime 0 twice gives the same state as
deleting it once, and the second response equals the first. -/
theorem C10_delete_idempotent_witness :
    (deleteShowtime (deleteShowtime stTwo 0).2 0).1 = (deleteShowtime stTwo 0).1 ∧
    (deleteShowtime (deleteShowtime stTwo 0).2 0).2 = (deleteShowtime stTwo 0).2 :=
  ⟨(C10_delete_idempotent stTwo 0 sBase rfl rfl).2.1,
   (C10_delete_idempotent stTwo 0 sBase rfl rfl).2.2⟩

/-- C1: the no-overlap invariant is not preserved by the update operation.
The fixture state is reached by two conflict-checked creates and satisfies
the invariant, yet an update that moves the second showtime onto the first
succeeds (200) and leaves two overlapping active showtimes on the same
`(cinemaId, screenId, date)` — the update handler runs no conflict check. -/
theorem C1_update_breaks_invariant :
    noOverlapB stTwo.showtimes = true ∧
    (updateShowtime stTwo 1 movePatch).1.httpStatus = 200 ∧
    (updateShowtime stTwo 1 movePatch).1.success = true ∧
    noOverlapB (updateShowtime stTwo 1 movePatch).2.showtimes = false := by
  decide

/-- C7 counterexample: the by-movie listing ignores `page`/`limit` entirely
(the handler destructures only `date` and `cinemaId`): with `limit=1` in the
query string it still returns both matching showtimes, unlike the main
listing, which pages down to one. -/
theorem C7_bymovie_not_paginated :
    (getShowtimesByMovie 1 ⟨none, none, some 1, some 1⟩ stTwo 0).showtimes.length = 2 ∧
    (getShowtimes ⟨none, none, none, some 1, some 1⟩ stTwo 0).showtimes.length = 1 ∧
    ¬(2 ≤ 1) := by
  decide

/-- The sort used by every listing is sorted ascending by start time. -/
theorem sorted_sortByStart (l : List Showtime) :
    List.Sorted startLE (sortByStart l) :=
  List.sorted_insertionSort startLE l

/-- The sort used by every listing preserves length. -/
theorem length_sortByStart (l : List Showtime) :
    (sortByStart l).length = l.length :=
  (List.perm_insertionSort startLE l).length_eq

/-- Components guaranteed by a match of the list query. -/
theorem matchesListQuery_props (rq : ListReq) (now : Int) (t : Showtime)
    (h : matchesListQuery rq now t = true) :
    t.isActive = true ∧
    (∀ d, rq.date = some d → dayStart d ≤ t.startTime ∧ t.startTime ≤ dayEnd d) ∧
    (rq.date = none → now ≤ t.startTime) := by
  simp only [matchesListQuery, Bool.and_eq_true] at h
  obtain ⟨⟨⟨hact, _⟩, _⟩, hdat⟩ := h
  refine ⟨hact, ?_, ?_⟩
  · intro d hd
    rw [hd] at hdat
    simpa using hdat
  · intro hd
    rw [hd] at hdat
    simpa using hdat

/-- Components guaranteed by a match of the by-movie query. -/
theorem matchesMovieQuery_props (movieId : Nat) (rq : MovieQuery) (now : Int)
    (t : Showtime) (h : matchesMovieQuery movieId rq now t = true) :
    t.isActive = true ∧ t.movieId = movieId ∧
    (∀ d, rq.date = some d → dayStart d ≤ t.startTime ∧ t.startTime ≤ dayEnd d) ∧
    (rq.date = none → now ≤ t.startTime) := by
  simp only [matchesMovieQuery, Bool.and_eq_true] at h
  obtain ⟨⟨⟨hmov, hact⟩, hdat⟩, _⟩ := h
  refine ⟨hact, by simpa using hmov, ?_, ?_⟩
  · intro d hd
    rw [hd] at hdat
    simpa using hdat
  · intro hd
    rw [hd] at hdat
    simpa using hdat

/-- Components guaranteed by a match of the by-cinema query. -/
theorem matchesCinemaQuery_props (cinemaId : Nat) (rq : CinemaQuery) (now : Int)
    (t : Showtime) (h : matchesCinemaQuery cinemaId rq now t = true) :
    t.isActive = true ∧ t.cinemaId = cinemaId ∧
    (∀ d, rq.date = some d → dayStart d ≤ t.startTime ∧ t.startTime ≤ dayEnd d) ∧
    (rq.date = none → now ≤ t.startTime) := by
  simp only [matchesCinemaQuery, Bool.and_eq_true] at h
  obtain ⟨⟨⟨hcin, hact⟩, hdat⟩, _⟩ := h
  refine ⟨hact, by simpa using hcin, ?_, ?_⟩
  · intro d hd
    rw [hd] at hdat
    simpa using hdat
  · intro hd
    rw [hd] at hdat
    simpa using hdat

/-- C7 amended: every listing returns only `isActive` records sorted
ascending by start time, restricted to the day range when a date is given
and to future start times otherwise; the main listing pages by `page`/`limit`
(defaults 1 and 20) with `totalPages = ceil(total / limit)`, while the
by-movie and by-cinema listings ignore pagination and return every match. -/
theorem C7_query_semantics (rq : ListReq) (st : State) (now : Int)
    (movieId cinemaId : Nat) (mrq : MovieQuery) (crq : CinemaQuery) :
    (∀ t ∈ (getShowtimes rq st now).showtimes,
      t.isActive = true ∧
      (∀ d, rq.date = some d → dayStart d ≤ t.startTime ∧ t.startTime ≤ dayEnd d) ∧
      (rq.date = none → now ≤ t.startTime)) ∧
    List.Sorted startLE (getShowtimes rq st now).showtimes ∧
    (getShowtimes rq st now).showtimes.length ≤ rq.limit.getD 20 ∧
    (getShowtimes rq st now).total =
      (st.showtimes.filter (matchesListQuery rq now)).length ∧
    (getShowtimes rq st now).totalPages =
      ceilDiv (getShowtimes rq st now).total (rq.limit.getD 20) ∧
    (∀ t ∈ (getShowtimesByMovie movieId mrq st now).showtimes,
      t.isActive = true ∧ t.movieId = movieId ∧
      (∀ d, mrq.date = some d → dayStart d ≤ t.startTime ∧ t.startTime ≤ dayEnd d) ∧
      (mrq.date = none → now ≤ t.startTime)) ∧
    List.Sorted startLE (getShowtimesByMovie movieId mrq st now).showtimes ∧
    (getShowtimesByMovie movieId mrq st now).count =
      (st.showtimes.filter (matchesMovieQuery movieId mrq now)).length ∧
    (∀ t ∈ (getShowtimesByCinema cinemaId crq st now).showtimes,
      t.isActive = true ∧ t.cinemaId = cinemaId ∧
      (∀ d, crq.date = some d → dayStart d ≤ t.startTime ∧ t.startTime ≤ dayEnd d) ∧
      (crq.date = none → now ≤ t.startTime)) ∧
    List.Sorted startLE (getShowtimesByCinema cinemaId crq st now).showtimes ∧
    (getShowtimesByCinema cinemaId crq st now).count =
      (st.showtimes.filter (matchesCinemaQuery cinemaId crq now)).length := by
  refine ⟨?_, ?_, ?_, rfl, rfl, ?_, ?_, ?_, ?_, ?_, ?_⟩
  · intro t ht
    exact matchesListQuery_props rq now t (mem_getShowtimes rq st now t ht).2
  · exact List.Pairwise.sublist
      ((List.take_sublist _ _).trans (List.drop_sublist _ _))
      (sorted_sortByStart (st.showtimes.filter (matchesListQuery rq now)))
  · show (((sortByStart (st.showtimes.filter (matchesListQuery rq now))).drop
      ((rq.page.getD 1 - 1) * rq.limit.getD 20)).take (rq.limit.getD 20)).length
        ≤ rq.limit.getD 20
    rw [List.length_take]
    exact min_le_left _ _
  · intro t ht
    obtain ⟨h1, h2, h3, h4⟩ :=
      matchesMovieQuery_props movieId mrq now t
        (mem_getShowtimesByMovie movieId mrq st now t ht).2
    exact ⟨h1, h2, h3, h4⟩
  · exact sorted_sortByStart (st.showtimes.filter (matchesMovieQuery movieId mrq now))
  · exact length_sortByStart (st.showtimes.filter (matchesMovieQuery movieId mrq now))
  · intro t ht
    obtain ⟨h1, h2, h3, h4⟩ :=
      matchesCinemaQuery_props cinemaId crq now t
        (mem_getShowtimesByCinema cinemaId crq st now t ht).2
    exact ⟨h1, h2, h3, h4⟩
  · exact sorted_sortByStart (st.showtimes.filter (matchesCinemaQuery cinemaId crq now))
  · exact length_sortByStart (st.showtimes.filter (matchesCinemaQuery cinemaId crq now))

/-- C7 amended witness: on the fixture state, the unfiltered listing holds
a member that is active, and the page is within the default limit of 20. -/
theorem C7_query_semantics_witness :
    sBase.isActive = true ∧
    (getShowtimes ⟨none, none, none, none, none⟩ stTwo 0).showtimes.length ≤ 20 :=
  ⟨((C7_query_semantics ⟨none, none, none, none, none⟩ stTwo 0 1 2
      ⟨none, none, none, none⟩ ⟨none, none, none, none⟩).1 sBase (by decide)).1,
   (C7_query_semantics ⟨none, none, none, none, none⟩ stTwo 0 1 2
      ⟨none, none, none, none⟩ ⟨none, none, none, none⟩).2.2.1⟩
